import Mathlib

/-!
Shallow embedding of the httpsms web client's Vuex store
(`src/web/store/index.ts`) and of the send-message error handler of
`src/web/pages/messages/index.vue`.

Conventions of the embedding:
* TypeScript `T | null` (and `undefined`) becomes `Option T`.
* JavaScript arrays become `List`.
* `Math.floor(Math.random() * 100)` is modelled by a `Fin 100` parameter:
  `Math.random ()` lies in `[0, 1)`, so the floor of its product with 100 is an
  integer in `[0, 100)`.
* Getters that `throw` become `Except String`.
* Actions take a `Gateway` oracle describing the remote service's responses and
  return, besides the new state, the list of remote calls they issued, in order.
-/

namespace HttpSms

/-- `defaultNotificationTimeout` from `src/web/store/index.ts`. -/
def defaultNotificationTimeout : Nat := 3000

/-- `type NotificationType = 'error' | 'success' | 'info'`. -/
inductive NotificationType where
  | error
  | success
  | info
deriving DecidableEq, Repr

/-- `interface Notification` from the store. -/
structure Notification where
  message : String
  timeout : Nat
  active : Bool
  type : NotificationType
deriving DecidableEq, Repr

/-- `interface NotificationRequest` from the store. -/
structure NotificationRequest where
  message : String
  type : NotificationType
deriving DecidableEq, Repr

/-- `type AuthUser = { id: string }`. -/
structure AuthUser where
  id : String
deriving DecidableEq, Repr

/-- The user profile (`~/models/user`); the store only reads
`active_phone_id`, which references a phone by id (nullable on the wire). -/
structure User where
  id : String
  active_phone_id : Option String
deriving DecidableEq, Repr

/-- A phone record (`~/models/phone`); the store reads `id` and
`phone_number`. -/
structure Phone where
  id : String
  phone_number : String
deriving DecidableEq, Repr

/-- A message thread (`~/models/message-thread`); the store reads `id`,
`owner` and `contact`. -/
structure MessageThread where
  id : String
  owner : String
  contact : String
deriving DecidableEq, Repr

/-- A message (`~/models/message`); the store never inspects its fields. -/
structure Message where
  id : String
  owner : String
  contact : String
  content : String
deriving DecidableEq, Repr

/-- A heartbeat record (`~/models/heartbeat`); the store never inspects its
fields. -/
structure Heartbeat where
  id : String
  owner : String
deriving DecidableEq, Repr

/-- `type State` from the store. -/
structure State where
  owner : Option String
  loadingThreads : Bool
  loadingMessages : Bool
  authUser : Option AuthUser
  user : Option User
  phones : List Phone
  threads : List MessageThread
  threadId : Option String
  heartbeat : Option Heartbeat
  pooling : Bool
  notification : Notification
  threadMessages : List Message
deriving DecidableEq, Repr

/-- `export const state = (): State => ({...})`: the initial state. -/
def state : State :=
  { threads := []
    threadId := none
    heartbeat := none
    loadingThreads := true
    loadingMessages := true
    pooling := false
    threadMessages := []
    phones := []
    user := none
    owner := none
    authUser := none
    notification :=
      { active := false
        message := ""
        type := NotificationType.success
        timeout := defaultNotificationTimeout } }

/-- `type SendMessageRequest` from the store. -/
structure SendMessageRequest where
  fromNumber : String
  toNumber : String
  content : String
deriving DecidableEq, Repr

namespace getters

/-- Getter `getThreads`. -/
def getThreads (s : State) : List MessageThread :=
  s.threads

/-- Getter `getAuthUser`. -/
def getAuthUser (s : State) : Option AuthUser :=
  s.authUser

/-- Getter `getUser`. -/
def getUser (s : State) : Option User :=
  s.user

/-- Getter `getOwner`. -/
def getOwner (s : State) : Option String :=
  s.owner

/-- Getter `getActivePhone`: the phone whose `phone_number` strictly equals
`state.owner` (`===` against a `string | null` holds only when `owner` is the
same string), or `null`. -/
def getActivePhone (s : State) : Option Phone :=
  s.phones.find? (fun x => some x.phone_number = s.owner)

/-- Getter `getPhones`. -/
def getPhones (s : State) : List Phone :=
  s.phones

/-- Getter `getThread`: `state.threads.find((x) => x.id === state.threadId)`,
throwing when `find` returns `undefined`. -/
def getThread (s : State) : Except String MessageThread :=
  match s.threads.find? (fun x => some x.id = s.threadId) with
  | some thread => Except.ok thread
  | none =>
      Except.error ("cannot find thread with id " ++
        (match s.threadId with
         | some t => t
         | none => "null"))

/-- Getter `getThreadMessages`. -/
def getThreadMessages (s : State) : List Message :=
  s.threadMessages

/-- Getter `getNotification`. -/
def getNotification (s : State) : Notification :=
  s.notification

end getters

namespace mutations

/-- Mutation `setThreads`: copies the payload into `threads` and clears
`loadingThreads`. -/
def setThreads (s : State) (payload : List MessageThread) : State :=
  { s with threads := payload, loadingThreads := false }

/-- Mutation `setThreadId`. -/
def setThreadId (s : State) (payload : Option String) : State :=
  { s with threadId := payload }

/-- Mutation `setThreadMessages`: stores the payload and clears
`loadingMessages`. -/
def setThreadMessages (s : State) (payload : List Message) : State :=
  { s with threadMessages := payload, loadingMessages := false }

/-- Mutation `setHeartbeat`. -/
def setHeartbeat (s : State) (payload : Option Heartbeat) : State :=
  { s with heartbeat := payload }

/-- Mutation `setPooling`. -/
def setPooling (s : State) (payload : Bool) : State :=
  { s with pooling := payload }

/-- Mutation `setAuthUser`. -/
def setAuthUser (s : State) (payload : Option AuthUser) : State :=
  { s with authUser := payload }

/-- Mutation `setNotification`: spreads the old notification and then
overwrites all four fields; `rand` stands for
`Math.floor(Math.random() * 100)`, an integer in `[0, 100)`. -/
def setNotification (s : State) (notification : NotificationRequest)
    (rand : Fin 100) : State :=
  { s with notification :=
      { s.notification with
          active := true
          message := notification.message
          type := notification.type
          timeout := rand.val + defaultNotificationTimeout } }

/-- Mutation `disableNotification`: clears only the `active` flag. -/
def disableNotification (s : State) : State :=
  { s with notification := { s.notification with active := false } }

/-- Mutation `setPhones`: stores the payload, then, when no phone in the
payload has `phone_number === state.owner` and the stored collection is
non-empty, resets `owner` to the first phone's number. -/
def setPhones (s : State) (payload : List Phone) : State :=
  let s1 := { s with phones := payload }
  let owner := payload.find? (fun x => some x.phone_number = s1.owner)
  match owner, s1.phones with
  | none, p :: _ => { s1 with owner := some p.phone_number }
  | _, _ => s1

/-- Mutation `setUser`. -/
def setUser (s : State) (payload : Option User) : State :=
  { s with user := payload }

/-- Mutation `setOwner`: stores the payload and re-arms both loading
flags. -/
def setOwner (s : State) (payload : String) : State :=
  { s with owner := some payload, loadingThreads := true,
           loadingMessages := true }

end mutations

/-- One store mutation, as dispatched by `commit`; covers every mutation in
`export const mutations`. -/
inductive Mutation where
  | setThreads (payload : List MessageThread)
  | setThreadId (payload : Option String)
  | setThreadMessages (payload : List Message)
  | setHeartbeat (payload : Option Heartbeat)
  | setPooling (payload : Bool)
  | setAuthUser (payload : Option AuthUser)
  | setNotification (request : NotificationRequest) (rand : Fin 100)
  | disableNotification
  | setPhones (payload : List Phone)
  | setUser (payload : Option User)
  | setOwner (payload : String)
deriving DecidableEq, Repr

/-- Dispatch one mutation against the state. -/
def applyMutation (m : Mutation) (s : State) : State :=
  match m with
  | Mutation.setThreads p => mutations.setThreads s p
  | Mutation.setThreadId p => mutations.setThreadId s p
  | Mutation.setThreadMessages p => mutations.setThreadMessages s p
  | Mutation.setHeartbeat p => mutations.setHeartbeat s p
  | Mutation.setPooling p => mutations.setPooling s p
  | Mutation.setAuthUser p => mutations.setAuthUser s p
  | Mutation.setNotification req r => mutations.setNotification s req r
  | Mutation.disableNotification => mutations.disableNotification s
  | Mutation.setPhones p => mutations.setPhones s p
  | Mutation.setUser p => mutations.setUser s p
  | Mutation.setOwner p => mutations.setOwner s p

/-- A remote call issued through the axios gateway, with the request data the
store supplies. -/
inductive Call where
  | getThreads (owner : String)
  | getPhones
  | getUser
  | putUser (activePhoneId : String)
  | postMessage (request : SendMessageRequest)
  | getMessages (contact : String) (owner : String)
deriving DecidableEq, Repr

/-- Oracle for the remote service: the response each endpoint would return,
keyed by the request parameters the store sends. -/
structure Gateway where
  threadsResp : String → List MessageThread
  phonesResp : List Phone
  userResp : User
  putUserResp : String → User
  messagesResp : String → String → List Message

namespace actions

/-- Action `loadThreads`: with no owner, commits empty threads and returns
without a remote call; otherwise fetches `/v1/message-threads` filtered by the
owner and commits the response. -/
def loadThreads (g : Gateway) (s : State) : State × List Call :=
  match getters.getOwner s with
  | none => (mutations.setThreads s [], [])
  | some o => (mutations.setThreads s (g.threadsResp o), [Call.getThreads o])

/-- Action `loadPhones`: skipped when phones are already cached and `force`
is falsy; otherwise fetches `/v1/phones` and commits the response. -/
def loadPhones (g : Gateway) (s : State) (force : Bool) : State × List Call :=
  if (getters.getPhones s).length > 0 ∧ force = false then
    (s, [])
  else
    (mutations.setPhones s g.phonesResp, [Call.getPhones])

/-- Action `loadUser`: fetches `/v1/users/me` and commits the profile. -/
def loadUser (g : Gateway) (s : State) : State × List Call :=
  (mutations.setUser s (some g.userResp), [Call.getUser])

/-- Action `setOwner`: commits the `setOwner` mutation, then looks up the
active phone; with no match it returns (no remote call), otherwise it PUTs
`/v1/users/me` with the phone's id and commits the returned profile. -/
def setOwner (g : Gateway) (s : State) (owner : String) : State × List Call :=
  let s1 := mutations.setOwner s owner
  match getters.getActivePhone s1 with
  | none => (s1, [])
  | some phone =>
      (mutations.setUser s1 (some (g.putUserResp phone.id)),
        [Call.putUser phone.id])

/-- Action `setAuthUser`: commits the new auth user; only when the identity
changed to a non-null user does it run the cascade: `loadUser` and
`loadPhones` (dispatched with an undefined, hence falsy, `force`), then, when
the profile's `active_phone_id` matches a loaded phone, the `setOwner`
action with that phone's number. `Promise.all` starts `loadUser` before
`loadPhones`; they write disjoint fields apart from `setPhones` reading
`owner`, which `loadUser` never writes, so the sequential composition below
is their only outcome. -/
def setAuthUser (g : Gateway) (s : State) (user : Option AuthUser) :
    State × List Call :=
  let userChanged := user.map AuthUser.id ≠ (getters.getAuthUser s).map AuthUser.id
  let s1 := mutations.setAuthUser s user
  if userChanged ∧ user ≠ none then
    let r2 := loadUser g s1
    let r3 := loadPhones g r2.1 false
    -- `getUser` is non-null here: `loadUser` has just committed it.
    let phone := (getters.getUser r3.1).bind (fun u =>
      (getters.getPhones r3.1).find? (fun x => u.active_phone_id = some x.id))
    match phone with
    | some p =>
        let r4 := setOwner g r3.1 p.phone_number
        (r4.1, r2.2 ++ r3.2 ++ r4.2)
    | none => (r3.1, r2.2 ++ r3.2)
  else
    (s1, [])

/-- Action `addNotification`: commits `setNotification`; `rand` stands for
the random draw inside the mutation. -/
def addNotification (s : State) (request : NotificationRequest)
    (rand : Fin 100) : State :=
  mutations.setNotification s request rand

/-- Action `loadThreadMessages`: commits the thread id, then reads the
now-current thread (failing via `getThread` when the id is not in the
collection), fetches `/v1/messages` for its `(contact, owner)` pair and
commits the messages. -/
def loadThreadMessages (g : Gateway) (s : State) (threadId : Option String) :
    Except String (State × List Call) :=
  let s1 := mutations.setThreadId s threadId
  match getters.getThread s1 with
  | Except.error e => Except.error e
  | Except.ok t =>
      Except.ok (mutations.setThreadMessages s1 (g.messagesResp t.contact t.owner),
        [Call.getMessages t.contact t.owner])

end actions

/-- Observable events of one `sendMessage` action run, in temporal order:
the POST resolving, each reload being issued (its dispatch called), each
reload's promise resolving, and the action's own promise resolving. -/
inductive SMEvent where
  | posted
  | messagesReloadIssued
  | threadsReloadIssued
  | messagesReloadResolved
  | threadsReloadResolved
  | resolved
deriving DecidableEq, Repr

namespace actions

/-- Action `sendMessage`: awaits the POST, then fans out
`loadThreadMessages(getThread.id)` and `loadThreads` under `Promise.all` and
resolves after both. Cooperative scheduling interleaves the two reloads only
at their await points: the messages reload commits `setThreadId` and then
suspends on that awaited commit, so the thread-list reload's issue-time code
runs (with no owner, synchronously emptying the thread collection) before
the messages reload resumes and reads `getThread` for its request
parameters — with a null owner that read therefore always fails and the
whole action rejects. Each reload commits its response when it resolves;
`messagesResolveFirst` picks which response resolves first, the order
`Promise.all` leaves unspecified. Any `getThread` failure rejects the whole
action. -/
def sendMessage (g : Gateway) (s : State) (request : SendMessageRequest)
    (messagesResolveFirst : Bool) :
    Except String (List SMEvent × State × List Call) :=
  -- `await axios.post('/v1/messages/send', request)` resolves: event `posted`.
  match getters.getThread s with
  | Except.error e => Except.error e
  | Except.ok t =>
    -- messages reload issued: commits `setThreadId` and suspends on the
    -- awaited commit.
    let s1 := mutations.setThreadId s (some t.id)
    -- threads reload issued: with no owner its empty commit happens at
    -- issue time and no GET starts; otherwise the GET starts and the
    -- commit waits for the response.
    let issued : State × (State → State) × List Call :=
      match getters.getOwner s1 with
      | none => (mutations.setThreads s1 [], fun st => st, [])
      | some o =>
          (s1, fun st => mutations.setThreads st (g.threadsResp o),
            [Call.getThreads o])
    let s2 := issued.1
    -- the messages reload resumes: it reads the now-current thread for its
    -- request parameters and starts its GET; an emptied collection rejects
    -- the whole action here.
    match getters.getThread s2 with
    | Except.error e => Except.error e
    | Except.ok t2 =>
      let commitMessages : State → State := fun st =>
        mutations.setThreadMessages st (g.messagesResp t2.contact t2.owner)
      let s3 := if messagesResolveFirst then issued.2.1 (commitMessages s2)
                else commitMessages (issued.2.1 s2)
      let resolveEvents := if messagesResolveFirst then
          [SMEvent.messagesReloadResolved, SMEvent.threadsReloadResolved]
        else
          [SMEvent.threadsReloadResolved, SMEvent.messagesReloadResolved]
      Except.ok
        ([SMEvent.posted, SMEvent.messagesReloadIssued,
            SMEvent.threadsReloadIssued] ++ resolveEvents ++ [SMEvent.resolved],
          s3,
          [Call.postMessage request] ++ issued.2.2 ++
            [Call.getMessages t2.contact t2.owner])

end actions

/-!
The send-message error handler of `src/web/pages/messages/index.vue`
(`sendMessage`'s `.catch` callback): the remote validation-error payload
`response.data.data` and what the handler does with it.
-/

/-- The validation-error payload `{content?: string[], to?: string[],
from?: string[]}`; `none` models an absent (undefined, hence falsy) field,
while a present array — even an empty one — is truthy in the guards. -/
structure ValidationData where
  content : Option (List String)
  «to» : Option (List String)
  «from» : Option (List String)
deriving DecidableEq, Repr

/-- JavaScript `String.prototype.replace` with a string pattern: replace the
leftmost occurrence of `pat` only, leave the string unchanged when `pat` does
not occur. -/
def replaceFirstAux (rep : List Char) : List Char → List Char → List Char
  | [], _ => []
  | c :: rest, pat =>
      if pat.isPrefixOf (c :: rest) then rep ++ (c :: rest).drop pat.length
      else c :: replaceFirstAux rep rest pat

/-- `s.replace(pat, rep)` on strings. -/
def replaceFirst (s pat rep : String) : String :=
  String.mk (replaceFirstAux rep.data s.data pat.data)

/-- The notification request the handler dispatches for a `from` error:
`{message: response.data.data.from[0], type: 'error'}`; the message is `none`
when the array is empty (JavaScript indexing past the end yields
undefined). -/
structure DispatchedNotification where
  message : Option String
  type : NotificationType
deriving DecidableEq, Repr

/-- What the catch handler leaves behind: the `errors` map assigned to
`this.errors` (as an insertion-ordered association list) and the notification
dispatched for a `from` error, if any. -/
structure SendErrorOutcome where
  errors : List (String × List String)
  notification : Option DispatchedNotification
deriving DecidableEq, Repr

/-- The catch handler of `sendMessage` in `src/web/pages/messages/index.vue`:
builds a fresh errors map with the `content` errors verbatim and the `to`
errors with "to field" rewritten to "phone number field", and dispatches a
notification of type error carrying the first `from` error. -/
def handleSendError (d : ValidationData) : SendErrorOutcome :=
  let errs : List (String × List String) :=
    match d.content with
    | some c => [("content", c)]
    | none => []
  let errs :=
    match d.«to» with
    | some t =>
        errs ++ [("to", t.map (fun x => replaceFirst x "to field" "phone number field"))]
    | none => errs
  let notif :=
    match d.«from» with
    | some f => some { message := f.head?, type := NotificationType.error }
    | none => none
  { errors := errs, notification := notif }

/-!
Concrete fixtures, used to evaluate the model on closed inputs.
-/

/-- Fixture phone. -/
def wPhoneA : Phone := { id := "1", phone_number := "+1A" }

/-- Fixture phone. -/
def wPhoneB : Phone := { id := "2", phone_number := "+1B" }

/-- Fixture profile preferring `wPhoneB`. -/
def wUser : User := { id := "u1", active_phone_id := some "2" }

/-- Fixture thread. -/
def wThread : MessageThread := { id := "t1", owner := "+1A", contact := "+1B" }

/-- Fixture gateway. -/
def wGateway : Gateway :=
  { threadsResp := fun _ => [wThread]
    phonesResp := [wPhoneA, wPhoneB]
    userResp := wUser
    putUserResp := fun i => { id := "u1", active_phone_id := some i }
    messagesResp := fun _ _ => [] }

/-- Fixture state with `wThread` open and its owner selected (a null owner
makes `sendMessage` reject: the thread-list reload empties the collection
before the messages reload reads it). -/
def wSendState : State :=
  { state with owner := some "+1A", threads := [wThread],
               threadId := some "t1" }

/-- Fixture send request. -/
def wReq : SendMessageRequest :=
  { fromNumber := "+1A", toNumber := "+1B", content := "hi" }

/-- The event trace of `sendMessage` on `wSendState` with the messages
reload resolving first. -/
def wTrace : List SMEvent :=
  [SMEvent.posted, SMEvent.messagesReloadIssued, SMEvent.threadsReloadIssued,
    SMEvent.messagesReloadResolved, SMEvent.threadsReloadResolved,
    SMEvent.resolved]

/-- The state `sendMessage` leaves behind on `wSendState` when the messages
reload resolves first: thread id re-set, then the empty message list
committed, then the refetched thread list committed. -/
def wFinal : State :=
  mutations.setThreads
    (mutations.setThreadMessages (mutations.setThreadId wSendState (some "t1"))
      [])
    [wThread]

/-- The calls `sendMessage` issues on `wSendState`, in order. -/
def wCalls : List Call :=
  [Call.postMessage wReq, Call.getThreads "+1A", Call.getMessages "+1B" "+1A"]

/-!
Theorems: one per claim, with helper lemmas shared between them.
-/

/-- Unfolding lemma for the `setOwner` action. -/
theorem setOwner_action_run (g : Gateway) (s : State) (w : String) :
    actions.setOwner g s w =
      match getters.getActivePhone (mutations.setOwner s w) with
      | none => (mutations.setOwner s w, [])
      | some phone =>
          (mutations.setUser (mutations.setOwner s w)
              (some (g.putUserResp phone.id)),
            [Call.putUser phone.id]) := rfl

/-- The `setOwner` action always ends with the committed owner and both
loading flags re-armed, whichever branch it takes. -/
theorem setOwner_action_owner_flags (g : Gateway) (s : State) (w : String) :
    (actions.setOwner g s w).1.owner = some w ∧
    (actions.setOwner g s w).1.loadingThreads = true ∧
    (actions.setOwner g s w).1.loadingMessages = true := by
  rw [setOwner_action_run]
  cases getters.getActivePhone (mutations.setOwner s w) <;> exact ⟨rfl, rfl, rfl⟩

/-- Unfolding lemma for the `loadPhones` action. -/
theorem loadPhones_run (g : Gateway) (s : State) (force : Bool) :
    actions.loadPhones g s force =
      if s.phones.length > 0 ∧ force = false then (s, [])
      else (mutations.setPhones s g.phonesResp, [Call.getPhones]) := rfl

/-- Unfolding lemma for the `setPhones` mutation. -/
theorem setPhones_eq (s : State) (payload : List Phone) :
    mutations.setPhones s payload =
      match payload.find? (fun x => some x.phone_number = s.owner), payload with
      | none, p :: _ => { s with phones := payload, owner := some p.phone_number }
      | _, _ => { s with phones := payload } := rfl

/-- C1: after the `setPhones` mutation, a payload containing a phone whose
number equals the prior owner leaves the owner unchanged; a non-empty payload
with no such phone makes the owner the first phone's number; an empty payload
leaves the owner unchanged. -/
theorem setPhones_owner_invariant (s : State) (payload : List Phone) :
    ((∃ p ∈ payload, some p.phone_number = s.owner) →
      (mutations.setPhones s payload).owner = s.owner) ∧
    (∀ p0 rest, payload = p0 :: rest →
      (¬ ∃ p ∈ payload, some p.phone_number = s.owner) →
      (mutations.setPhones s payload).owner = some p0.phone_number) ∧
    (payload = [] → (mutations.setPhones s payload).owner = s.owner) := by
  refine ⟨?_, ?_, ?_⟩
  · intro hex
    rw [setPhones_eq]
    cases hf : payload.find? (fun x => some x.phone_number = s.owner) with
    | none =>
        exfalso
        obtain ⟨p, hp, hpe⟩ := hex
        have hnone := List.find?_eq_none.mp hf p hp
        simp only [decide_eq_true_eq] at hnone
        exact hnone hpe
    | some q =>
        cases payload <;> rfl
  · intro p0 rest hpay hnex
    subst hpay
    have hf : (p0 :: rest).find? (fun x => some x.phone_number = s.owner) = none := by
      apply List.find?_eq_none.mpr
      intro x hx
      simp only [decide_eq_true_eq]
      intro hcontra
      exact hnex ⟨x, hx, hcontra⟩
    rw [setPhones_eq, hf]
  · intro hpay
    subst hpay
    rfl

/-- C1 witness: a concrete instance of each branch. -/
theorem setPhones_owner_invariant_witness :
    (mutations.setPhones
        { state with owner := some "+1B" }
        [{ id := "1", phone_number := "+1A" },
         { id := "2", phone_number := "+1B" }]).owner = some "+1B" ∧
    (mutations.setPhones
        { state with owner := some "+1C" }
        [{ id := "1", phone_number := "+1A" },
         { id := "2", phone_number := "+1B" }]).owner = some "+1A" ∧
    (mutations.setPhones { state with owner := some "+1C" } []).owner =
      some "+1C" := by
  refine ⟨?_, ?_, ?_⟩
  · exact (setPhones_owner_invariant { state with owner := some "+1B" } _).1
      (by decide)
  · exact (setPhones_owner_invariant { state with owner := some "+1C" } _).2.1
      { id := "1", phone_number := "+1A" } [{ id := "2", phone_number := "+1B" }]
      rfl (by decide)
  · exact (setPhones_owner_invariant { state with owner := some "+1C" } _).2.2 rfl

/-- C2: `getThread` fails exactly when no thread in the collection has the
current thread id; on success it returns a member of the collection whose id
is the current thread id; and for any id present in the collection,
`setThreadId` followed by `getThread` succeeds with a thread of that id. -/
theorem getThread_not_found_iff (s : State) :
    ((∃ e, getters.getThread s = Except.error e) ↔
      ¬ ∃ t ∈ s.threads, s.threadId = some t.id) ∧
    (∀ t, getters.getThread s = Except.ok t →
      t ∈ s.threads ∧ s.threadId = some t.id) ∧
    (∀ i, (∃ t ∈ s.threads, t.id = i) →
      ∃ t, getters.getThread (mutations.setThreadId s (some i)) = Except.ok t ∧
        t.id = i) := by
  refine ⟨?_, ?_, ?_⟩
  · unfold getters.getThread
    cases hf : s.threads.find? (fun x => some x.id = s.threadId) with
    | none =>
        constructor
        · intro _
          rintro ⟨t, ht, hid⟩
          have hnone := List.find?_eq_none.mp hf t ht
          simp only [decide_eq_true_eq] at hnone
          exact hnone hid.symm
        · intro _
          exact ⟨_, rfl⟩
    | some q =>
        constructor
        · rintro ⟨e, he⟩
          exact Except.noConfusion he
        · intro hne
          exfalso
          have hq := List.find?_some hf
          simp only [decide_eq_true_eq] at hq
          exact hne ⟨q, List.mem_of_find?_eq_some hf, hq.symm⟩
  · intro t ht
    unfold getters.getThread at ht
    cases hf : s.threads.find? (fun x => some x.id = s.threadId) with
    | none => rw [hf] at ht; exact Except.noConfusion ht
    | some q =>
        rw [hf] at ht
        injection ht with hqt
        subst hqt
        have hq := List.find?_some hf
        simp only [decide_eq_true_eq] at hq
        exact ⟨List.mem_of_find?_eq_some hf, hq.symm⟩
  · intro i hex
    unfold getters.getThread mutations.setThreadId
    cases hf : s.threads.find? (fun x => some x.id = some i) with
    | none =>
        exfalso
        obtain ⟨t, ht, hid⟩ := hex
        have hnone := List.find?_eq_none.mp hf t ht
        simp only [decide_eq_true_eq] at hnone
        exact hnone (by rw [hid])
    | some q =>
        have hq := List.find?_some hf
        simp only [decide_eq_true_eq, Option.some_inj] at hq
        exact ⟨q, rfl, hq⟩

/-- C2 witness: a concrete thread collection exercising failure, success and
the round trip. -/
theorem getThread_not_found_iff_witness :
    ((∃ e, getters.getThread
        { state with threads := [{ id := "t1", owner := "+1A", contact := "+1B" }] } =
        Except.error e) ↔
      ¬ ∃ t ∈ [({ id := "t1", owner := "+1A", contact := "+1B" } : MessageThread)],
        (none : Option String) = some t.id) ∧
    (∃ t, getters.getThread
        (mutations.setThreadId
          { state with threads := [{ id := "t1", owner := "+1A", contact := "+1B" }] }
          (some "t1")) = Except.ok t ∧ t.id = "t1") := by
  constructor
  · exact (getThread_not_found_iff
      { state with threads := [{ id := "t1", owner := "+1A", contact := "+1B" }] }).1
  · exact (getThread_not_found_iff
      { state with threads := [{ id := "t1", owner := "+1A", contact := "+1B" }] }).2.2
      "t1" ⟨_, List.mem_singleton.mpr rfl, rfl⟩

/-- C5: `loadThreads` with a null owner issues no remote call and leaves an
empty thread collection with the loading flag cleared; with a non-null owner
it issues exactly the filtered GET and replaces the collection with the
response, clearing the flag. -/
theorem loadThreads_spec (g : Gateway) (s : State) :
    (s.owner = none →
      (actions.loadThreads g s).2 = [] ∧
      (actions.loadThreads g s).1.threads = [] ∧
      (actions.loadThreads g s).1.loadingThreads = false) ∧
    (∀ o, s.owner = some o →
      (actions.loadThreads g s).2 = [Call.getThreads o] ∧
      (actions.loadThreads g s).1.threads = g.threadsResp o ∧
      (actions.loadThreads g s).1.loadingThreads = false) := by
  constructor
  · intro h
    unfold actions.loadThreads getters.getOwner
    rw [h]
    exact ⟨rfl, rfl, rfl⟩
  · intro o h
    unfold actions.loadThreads getters.getOwner
    rw [h]
    exact ⟨rfl, rfl, rfl⟩

/-- C5 witness: the null-owner and the concrete-owner branch on the initial
state. -/
theorem loadThreads_spec_witness :
    (actions.loadThreads
        { threadsResp := fun _ => [], phonesResp := [],
          userResp := { id := "u1", active_phone_id := none },
          putUserResp := fun _ => { id := "u1", active_phone_id := none },
          messagesResp := fun _ _ => [] }
        state).2 = [] ∧
    (actions.loadThreads
        { threadsResp := fun _ => [], phonesResp := [],
          userResp := { id := "u1", active_phone_id := none },
          putUserResp := fun _ => { id := "u1", active_phone_id := none },
          messagesResp := fun _ _ => [] }
        { state with owner := some "+1A" }).2 = [Call.getThreads "+1A"] := by
  constructor
  · exact ((loadThreads_spec _ state).1 rfl).1
  · exact ((loadThreads_spec _ { state with owner := some "+1A" }).2 _ rfl).1

/-- C6: the `setOwner` mutation sets both loading flags to true and the owner
to the payload, whatever the prior state. -/
theorem setOwner_mutation_rearms (s : State) (payload : String) :
    (mutations.setOwner s payload).loadingThreads = true ∧
    (mutations.setOwner s payload).loadingMessages = true ∧
    (mutations.setOwner s payload).owner = some payload :=
  ⟨rfl, rfl, rfl⟩

/-- C7: `setNotification` produces the notification with `active` forced
true, the request's message and type, and a timeout of the base timeout plus
the random draw, an integer below 100; a second request fully replaces the
first. -/
theorem setNotification_replaces (s : State) (r1 r2 : NotificationRequest)
    (k1 k2 : Fin 100) :
    (mutations.setNotification s r1 k1).notification =
      { message := r1.message, timeout := defaultNotificationTimeout + k1.val,
        active := true, type := r1.type } ∧
    k1.val < 100 ∧
    (mutations.setNotification (mutations.setNotification s r1 k1) r2 k2).notification =
      { message := r2.message, timeout := defaultNotificationTimeout + k2.val,
        active := true, type := r2.type } := by
  refine ⟨?_, k1.isLt, ?_⟩
  · unfold mutations.setNotification
    simp [Nat.add_comm]
  · unfold mutations.setNotification
    simp [Nat.add_comm]

/-- C4: the `setOwner` action commits the owner with both loading flags
re-armed; when no phone in the collection carries that number it stops with
no remote call and the profile untouched, and when the lookup finds a phone
it issues exactly the profile update for that phone's id and commits the
returned profile. -/
theorem setOwner_action_frame (g : Gateway) (s : State) (w : String) :
    (actions.setOwner g s w).1.owner = some w ∧
    (actions.setOwner g s w).1.loadingThreads = true ∧
    (actions.setOwner g s w).1.loadingMessages = true ∧
    ((∀ p ∈ s.phones, p.phone_number ≠ w) →
      actions.setOwner g s w = (mutations.setOwner s w, [])) ∧
    (∀ p, getters.getActivePhone (mutations.setOwner s w) = some p →
      actions.setOwner g s w =
        (mutations.setUser (mutations.setOwner s w) (some (g.putUserResp p.id)),
          [Call.putUser p.id])) := by
  obtain ⟨h1, h2, h3⟩ := setOwner_action_owner_flags g s w
  refine ⟨h1, h2, h3, ?_, ?_⟩
  · intro hne
    have hf : getters.getActivePhone (mutations.setOwner s w) = none := by
      unfold getters.getActivePhone
      apply List.find?_eq_none.mpr
      intro x hx
      simp only [decide_eq_true_eq]
      intro hcontra
      have : x.phone_number = w := by
        have := congrArg (fun o => o.getD "") hcontra
        simpa using this
      exact hne x hx this
    rw [setOwner_action_run, hf]
  · intro p hp
    rw [setOwner_action_run, hp]

/-- C4 witness: the no-match branch leaves the profile alone with no call;
the match branch issues the profile update for the matching phone's id. -/
theorem setOwner_action_frame_witness :
    actions.setOwner wGateway { state with phones := [wPhoneA] } "+1Z" =
      (mutations.setOwner { state with phones := [wPhoneA] } "+1Z", []) ∧
    actions.setOwner wGateway { state with phones := [wPhoneA] } "+1A" =
      (mutations.setUser (mutations.setOwner { state with phones := [wPhoneA] } "+1A")
          (some (wGateway.putUserResp wPhoneA.id)),
        [Call.putUser wPhoneA.id]) := by
  constructor
  · exact (setOwner_action_frame wGateway { state with phones := [wPhoneA] } "+1Z").2.2.2.1
      (by decide)
  · exact (setOwner_action_frame wGateway { state with phones := [wPhoneA] } "+1A").2.2.2.2
      wPhoneA (by decide)

/-- Unfolding lemma for the `setAuthUser` action. -/
theorem setAuthUser_action_run (g : Gateway) (s : State) (u : Option AuthUser) :
    actions.setAuthUser g s u =
      if u.map AuthUser.id ≠ s.authUser.map AuthUser.id ∧ u ≠ none then
        let s2 := mutations.setUser (mutations.setAuthUser s u) (some g.userResp)
        let r3 := actions.loadPhones g s2 false
        match (getters.getUser r3.1).bind (fun v =>
            (getters.getPhones r3.1).find? (fun x => v.active_phone_id = some x.id)) with
        | some p =>
            ((actions.setOwner g r3.1 p.phone_number).1,
              [Call.getUser] ++ r3.2 ++ (actions.setOwner g r3.1 p.phone_number).2)
        | none => (r3.1, [Call.getUser] ++ r3.2)
      else (mutations.setAuthUser s u, []) := rfl

/-- The `setPhones` mutation stores exactly the payload as the phone
collection. -/
theorem setPhones_phones (s : State) (payload : List Phone) :
    (mutations.setPhones s payload).phones = payload := by
  rw [setPhones_eq]
  cases payload.find? (fun x => some x.phone_number = s.owner) <;>
    cases payload <;> rfl

/-- The `setPhones` mutation leaves the cached profile alone. -/
theorem setPhones_user (s : State) (payload : List Phone) :
    (mutations.setPhones s payload).user = s.user := by
  rw [setPhones_eq]
  cases payload.find? (fun x => some x.phone_number = s.owner) <;>
    cases payload <;> rfl

/-- `setUser` only writes the profile field. -/
theorem setUser_phones (s : State) (p : Option User) :
    (mutations.setUser s p).phones = s.phones := rfl

/-- `setAuthUser` only writes the auth-user field. -/
theorem setAuthUser_phones (s : State) (p : Option AuthUser) :
    (mutations.setAuthUser s p).phones = s.phones := rfl

/-- `setUser` stores exactly the payload as the profile. -/
theorem setUser_user (s : State) (p : Option User) :
    (mutations.setUser s p).user = p := rfl

/-- `loadPhones` dispatched with a falsy `force`, split on whether phones are
cached. -/
theorem loadPhones_cascade (g : Gateway) (s2 : State) :
    actions.loadPhones g s2 false =
      if s2.phones = [] then
        (mutations.setPhones s2 g.phonesResp, [Call.getPhones])
      else (s2, []) := by
  rw [loadPhones_run]
  cases hp : s2.phones with
  | nil => simp
  | cons q rest => simp

/-- C3: the `setAuthUser` action runs its cascade exactly when the argument
is a non-null user whose id differs from the current auth user's: it then
issues the profile load (and the phones load when none are cached) and, when
the loaded profile's active phone id matches a loaded phone, ends with that
phone's number as owner; with a null argument or an unchanged id it only
commits the auth user and issues no call, leaving the owner unchanged. -/
theorem setAuthUser_cascade_iff (g : Gateway) (s : State) (u : Option AuthUser) :
    (∀ a, u = some a → some a.id ≠ s.authUser.map AuthUser.id →
      Call.getUser ∈ (actions.setAuthUser g s u).2 ∧
      (s.phones = [] → Call.getPhones ∈ (actions.setAuthUser g s u).2) ∧
      (∀ p, (if s.phones = [] then g.phonesResp else s.phones).find?
          (fun x => g.userResp.active_phone_id = some x.id) = some p →
        (actions.setAuthUser g s u).1.owner = some p.phone_number)) ∧
    ((u = none ∨ u.map AuthUser.id = s.authUser.map AuthUser.id) →
      actions.setAuthUser g s u = (mutations.setAuthUser s u, []) ∧
      (actions.setAuthUser g s u).1.owner = s.owner) := by
  constructor
  · intro a hu hne
    subst hu
    have hcond : (some a : Option AuthUser).map AuthUser.id ≠
        s.authUser.map AuthUser.id ∧ (some a : Option AuthUser) ≠ none :=
      ⟨hne, fun h => Option.noConfusion h⟩
    rw [setAuthUser_action_run, if_pos hcond]
    dsimp only
    rw [loadPhones_cascade, setUser_phones, setAuthUser_phones]
    by_cases hps : s.phones = []
    · rw [if_pos hps]
      dsimp only [getters.getUser, getters.getPhones]
      rw [setPhones_user, setUser_user, setPhones_phones]
      rw [if_pos hps]
      dsimp only [Option.bind]
      cases hf : g.phonesResp.find?
          (fun x => g.userResp.active_phone_id = some x.id) with
      | none =>
          refine ⟨by simp, fun _ => by simp, ?_⟩
          intro p hp
          exact Option.noConfusion hp
      | some p =>
          refine ⟨by simp, fun _ => by simp, ?_⟩
          intro p' hp'
          injection hp' with hpp
          subst hpp
          dsimp only
          exact (setOwner_action_owner_flags g _ p.phone_number).1
    · rw [if_neg hps]
      dsimp only [getters.getUser, getters.getPhones]
      rw [setUser_user, setUser_phones, setAuthUser_phones]
      rw [if_neg hps]
      dsimp only [Option.bind]
      cases hf : s.phones.find?
          (fun x => g.userResp.active_phone_id = some x.id) with
      | none =>
          refine ⟨by simp, fun h => absurd h hps, ?_⟩
          intro p hp
          exact Option.noConfusion hp
      | some p =>
          refine ⟨by simp, fun h => absurd h hps, ?_⟩
          intro p' hp'
          injection hp' with hpp
          subst hpp
          dsimp only
          exact (setOwner_action_owner_flags g _ p.phone_number).1
  · intro hno
    have hcond : ¬ ((u.map AuthUser.id ≠ s.authUser.map AuthUser.id) ∧
        u ≠ none) := by
      rcases hno with h | h
      · exact fun hc => hc.2 h
      · exact fun hc => hc.1 h
    rw [setAuthUser_action_run, if_neg hcond]
    exact ⟨rfl, rfl⟩

/-- C3 witness: a fresh sign-in from the initial state cascades and selects
the profile's preferred phone as owner; a repeat with the same id only
commits the auth user. -/
theorem setAuthUser_cascade_iff_witness :
    (Call.getUser ∈ (actions.setAuthUser wGateway state (some { id := "u1" })).2 ∧
      Call.getPhones ∈ (actions.setAuthUser wGateway state (some { id := "u1" })).2 ∧
      (actions.setAuthUser wGateway state (some { id := "u1" })).1.owner =
        some "+1B") ∧
    actions.setAuthUser wGateway { state with authUser := some { id := "u1" } }
        (some { id := "u1" }) =
      (mutations.setAuthUser { state with authUser := some { id := "u1" } }
          (some { id := "u1" }), []) := by
  constructor
  · obtain ⟨h1, h2, h3⟩ :=
      (setAuthUser_cascade_iff wGateway state (some { id := "u1" })).1
        { id := "u1" } rfl (by decide)
    exact ⟨h1, h2 rfl, h3 wPhoneB rfl⟩
  · exact ((setAuthUser_cascade_iff wGateway
      { state with authUser := some { id := "u1" } } (some { id := "u1" })).2
      (Or.inr rfl)).1

/-- C10: the initial state has a null owner, and no mutation ever takes the
owner from a non-null string back to null: `setOwner` stores a string and
`setPhones` only ever assigns a phone's number. -/
theorem owner_never_reverts (m : Mutation) (s : State) :
    state.owner = none ∧
    (s.owner ≠ none → (applyMutation m s).owner ≠ none) := by
  refine ⟨rfl, ?_⟩
  intro h
  cases m with
  | setThreads p => exact h
  | setThreadId p => exact h
  | setThreadMessages p => exact h
  | setHeartbeat p => exact h
  | setPooling p => exact h
  | setAuthUser p => exact h
  | setNotification req r => exact h
  | disableNotification => exact h
  | setUser p => exact h
  | setOwner p => exact fun hc => Option.noConfusion hc
  | setPhones p =>
      show (mutations.setPhones s p).owner ≠ none
      rw [setPhones_eq]
      cases p.find? (fun x => some x.phone_number = s.owner) with
      | none => cases p with
        | nil => exact h
        | cons q rest => exact fun hc => Option.noConfusion hc
      | some q => cases p with
        | nil => exact h
        | cons q' rest => exact h

/-- C10 witness: a concrete mutation on a state with a non-null owner keeps
the owner non-null. -/
theorem owner_never_reverts_witness :
    state.owner = none ∧
    (applyMutation (Mutation.setPhones []) { state with owner := some "+1A" }).owner ≠
      none :=
  ⟨(owner_never_reverts (Mutation.setPhones []) { state with owner := some "+1A" }).1,
    (owner_never_reverts (Mutation.setPhones [])
        { state with owner := some "+1A" }).2 (by decide)⟩

/-- C9: the send-message catch handler shows every `to` error with the first
occurrence of "to field" rewritten to "phone number field", never records an
inline `from` error, and surfaces a `from` error as an error-typed
notification carrying the first `from` string. -/
theorem handleSendError_spec (d : ValidationData) :
    (∀ ts, d.«to» = some ts →
      List.lookup ("to") (handleSendError d).errors =
        some (ts.map (fun x =>
          replaceFirst x ("to field") ("phone number field")))) ∧
    List.lookup ("from") (handleSendError d).errors = none ∧
    (∀ e fs, d.«from» = some (e :: fs) →
      (handleSendError d).notification =
        some { message := some e, type := NotificationType.error }) := by
  obtain ⟨c, t, f⟩ := d
  refine ⟨?_, ?_, ?_⟩
  · intro ts hts
    cases hts
    unfold handleSendError
    cases c <;> simp [List.lookup]
  · unfold handleSendError
    cases c <;> cases t <;> simp [List.lookup]
  · intro e fs hf
    cases hf
    unfold handleSendError
    cases c <;> cases t <;> simp

/-- C9 witness: a payload with one rewritable `to` error and two `from`
errors. -/
theorem handleSendError_spec_witness :
    List.lookup ("to")
        (handleSendError
          { content := none, «to» := some ["the to field is invalid"],
            «from» := some ["bad sender", "other"] }).errors =
      some [replaceFirst ("the to field is invalid") ("to field")
        ("phone number field")] ∧
    (handleSendError
        { content := none, «to» := some ["the to field is invalid"],
          «from» := some ["bad sender", "other"] }).notification =
      some { message := some ("bad sender"), type := NotificationType.error } :=
  ⟨(handleSendError_spec
      { content := none, «to» := some ["the to field is invalid"],
        «from» := some ["bad sender", "other"] }).1 _ rfl,
    (handleSendError_spec
      { content := none, «to» := some ["the to field is invalid"],
        «from» := some ["bad sender", "other"] }).2.2 ("bad sender") ["other"] rfl⟩

/-- C8: on any resolving `sendMessage` run, the post comes before both reload
issues, both reloads are issued and resolved before the action's own promise
resolves, and this holds under either resolution order of the two reloads. -/
theorem sendMessage_temporal_order (g : Gateway) (s : State)
    (request : SendMessageRequest) (b : Bool) (tr : List SMEvent) (s' : State)
    (cs : List Call)
    (h : actions.sendMessage g s request b = Except.ok (tr, s', cs)) :
    List.indexOf SMEvent.posted tr < List.indexOf SMEvent.messagesReloadIssued tr ∧
    List.indexOf SMEvent.posted tr < List.indexOf SMEvent.threadsReloadIssued tr ∧
    List.indexOf SMEvent.messagesReloadIssued tr < List.indexOf SMEvent.resolved tr ∧
    List.indexOf SMEvent.threadsReloadIssued tr < List.indexOf SMEvent.resolved tr ∧
    List.indexOf SMEvent.messagesReloadResolved tr < List.indexOf SMEvent.resolved tr ∧
    List.indexOf SMEvent.threadsReloadResolved tr < List.indexOf SMEvent.resolved tr ∧
    SMEvent.posted ∈ tr ∧ SMEvent.messagesReloadIssued ∈ tr ∧
    SMEvent.threadsReloadIssued ∈ tr ∧ SMEvent.messagesReloadResolved ∈ tr ∧
    SMEvent.threadsReloadResolved ∈ tr ∧ SMEvent.resolved ∈ tr := by
  unfold actions.sendMessage at h
  cases hg : getters.getThread s with
  | error e => rw [hg] at h; exact Except.noConfusion h
  | ok t =>
    rw [hg] at h
    dsimp only at h
    cases ho : getters.getOwner (mutations.setThreadId s (some t.id)) with
    | none =>
        rw [ho] at h
        dsimp only at h
        cases hg2 : getters.getThread
            (mutations.setThreads (mutations.setThreadId s (some t.id)) []) with
        | error e => rw [hg2] at h; exact Except.noConfusion h
        | ok t2 =>
            rw [hg2] at h
            dsimp only at h
            simp only [Except.ok.injEq, Prod.mk.injEq] at h
            obtain ⟨htr, -, -⟩ := h
            cases b with
            | true => subst htr; decide
            | false => subst htr; decide
    | some o =>
        rw [ho] at h
        dsimp only at h
        cases hg2 : getters.getThread (mutations.setThreadId s (some t.id)) with
        | error e => rw [hg2] at h; exact Except.noConfusion h
        | ok t2 =>
            rw [hg2] at h
            dsimp only at h
            simp only [Except.ok.injEq, Prod.mk.injEq] at h
            obtain ⟨htr, -, -⟩ := h
            cases b with
            | true => subst htr; decide
            | false => subst htr; decide

/-- C8 witness: a concrete resolving run on `wSendState` with the messages
reload resolving first. -/
theorem sendMessage_temporal_order_witness :
    List.indexOf SMEvent.posted wTrace <
      List.indexOf SMEvent.messagesReloadIssued wTrace ∧
    List.indexOf SMEvent.posted wTrace <
      List.indexOf SMEvent.threadsReloadIssued wTrace ∧
    List.indexOf SMEvent.messagesReloadIssued wTrace <
      List.indexOf SMEvent.resolved wTrace ∧
    List.indexOf SMEvent.threadsReloadIssued wTrace <
      List.indexOf SMEvent.resolved wTrace ∧
    List.indexOf SMEvent.messagesReloadResolved wTrace <
      List.indexOf SMEvent.resolved wTrace ∧
    List.indexOf SMEvent.threadsReloadResolved wTrace <
      List.indexOf SMEvent.resolved wTrace ∧
    SMEvent.posted ∈ wTrace ∧ SMEvent.messagesReloadIssued ∈ wTrace ∧
    SMEvent.threadsReloadIssued ∈ wTrace ∧
    SMEvent.messagesReloadResolved ∈ wTrace ∧
    SMEvent.threadsReloadResolved ∈ wTrace ∧ SMEvent.resolved ∈ wTrace :=
  sendMessage_temporal_order wGateway wSendState wReq true wTrace wFinal wCalls
    rfl

end HttpSms
